import Mathlib

/-!
Shallow embedding of the per-block execution pipeline of the `ipc` fendermint
interpreter (`fendermint/vm/interpreter/src/fvm/exec.rs`) and of the provider
sender resolution (`ipc/provider/src/lib.rs`), together with theorems settling
the specification claims about them.

Addresses are modelled as their FVM actor-id numbers; byte strings as
`List Nat`; token amounts and gas as `Nat`.  The external `StateExecutor`
capability is modelled as an oracle carried inside the execution state.
-/

namespace IpcExec

/-- FVM addresses, modelled by their actor-id number. -/
abbrev Address := Nat

/-- `system::SYSTEM_ACTOR_ADDR` (actor id 0). -/
def SYSTEM_ACTOR_ADDR : Address := 0

/-- `cron::CRON_ACTOR_ADDR` (builtin cron actor, id 3). -/
def CRON_ACTOR_ADDR : Address := 3

/-- Modelled from the spec: `chainmetadata::CHAINMETADATA_ACTOR_ADDR`, the
metadata actor the chain-metadata push targets; the defining crate is not in
`src/`, so only its being a fixed address distinct from the system and cron
actors matters here. -/
def CHAINMETADATA_ACTOR_ADDR : Address := 49

/-- Modelled from the spec: `machinelearning::MACHINELEARNING_ACTOR_ADDR`,
the actor targeted by the anomalous train/predict calls; the defining crate is
not in `src/`, only its being a fixed distinct address matters. -/
def MACHINELEARNING_ACTOR_ADDR : Address := 50

/-- `cron::Method::EpochTick as u64` (builtin cron actor method 2). -/
def CRON_EPOCH_TICK : Nat := 2

/-- Modelled from the spec: `fendermint_actor_chainmetadata::Method::PushBlockHash`;
the actor crate is not in `src/`, the exact number is irrelevant to the claims. -/
def METHOD_PUSH_BLOCK_HASH : Nat := 2

/-- Modelled from the spec: machine-learning actor method numbers
(`fendermint_actor_machinelearning::Method`); the crate is not in `src/`,
only their distinctness matters. -/
def METHOD_TRAIN_LINEAR_REGRESSION : Nat := 2

def METHOD_PREDICT_LINEAR_REGRESSION : Nat := 3

def METHOD_TRAIN_LOGISTIC_REGRESSION : Nat := 4

def METHOD_PREDICT_LOGISTIC_REGRESSION : Nat := 5

def METHOD_TRAIN_KNN_REGRESSION : Nat := 6

def METHOD_PREDICT_KNN_REGRESSION : Nat := 7

/-- `fvm_shared::BLOCK_GAS_LIMIT` (10 billion gas). -/
def BLOCK_GAS_LIMIT : Nat := 10000000000

/-- `ExitCode::SYS_SENDER_STATE_INVALID`: bad sequence number / sender state. -/
def SYS_SENDER_STATE_INVALID : Nat := 2

/-- Serialized message parameters / return payloads (`fvm_ipld_encoding::RawBytes`).
Serialization is modelled symbolically: each parameter struct that the code
serializes becomes a constructor carrying the struct fields, and raw payloads
that the code deserializes into `Vec<u8>` / `Vec<i64>` become the two
`serialized…` constructors. -/
inductive RawBytes where
  | empty : RawBytes
  | pushBlockParams (epoch : Int) (block : List Nat) : RawBytes
  | trainLinearRegressionParams (input_matrix : List (List Int)) (labels : List Int) : RawBytes
  | predictLinearRegressionParams (input_matrix : List (List Int)) (model : List Nat) : RawBytes
  | trainKNNRegressionParams (input_matrix : List (List Int)) (labels : List Int) : RawBytes
  | predictKNNRegressionParams (input_matrix : List (List Int)) (model : List Nat) : RawBytes
  | predictLogisticRegressionParams (input_matrix : List (List Int)) (model : List Nat) : RawBytes
  | serializedVecU8 (bytes : List Nat) : RawBytes
  | serializedVecI64 (ints : List Int) : RawBytes
deriving DecidableEq, Repr

/-- `RawBytes::deserialize::<Vec<u8>>()`: succeeds exactly on a serialized
byte vector. -/
def RawBytes.asVecU8 : RawBytes → Option (List Nat)
  | .serializedVecU8 bs => some bs
  | _ => none

/-- `RawBytes::deserialize::<Vec<i64>>()`: succeeds exactly on a serialized
integer vector. -/
def RawBytes.asVecI64 : RawBytes → Option (List Int)
  | .serializedVecI64 vs => some vs
  | _ => none

/-- `fvm_shared::message::Message` (aliased `FvmMessage` in the interpreter). -/
structure FvmMessage where
  version : Nat
  «from» : Address
  «to» : Address
  sequence : Nat
  value : Nat
  method_num : Nat
  params : RawBytes
  gas_limit : Nat
  gas_fee_cap : Nat
  gas_premium : Nat
deriving DecidableEq, Repr

/-- A message receipt (`fvm_shared::receipt::Receipt`): exit code, return
data and gas used. -/
structure Receipt where
  exit_code : Nat
  return_data : RawBytes
  gas_used : Nat
deriving DecidableEq, Repr

/-- `fvm::executor::ApplyRet`, reduced to the fields the interpreter reads:
the receipt and the optional failure info. -/
structure ApplyRet where
  msg_receipt : Receipt
  failure_info : Option String
deriving DecidableEq, Repr

/-- Delegated addresses of event emitters (`HashMap<ActorID, Address>`),
modelled as an association list. -/
abbrev Emitters := List (Nat × Address)

/-- The observability record emitted by `deliver` via `tracing::info!`
(height, from, to, method, exit code, gas used). -/
structure TraceRecord where
  height : Int
  «from» : Address
  «to» : Address
  method_num : Nat
  exit_code : Nat
  gas_used : Nat
deriving DecidableEq, Repr

/-- A bottom-up checkpoint, reduced to the fields `end` reads
(`block_height`, `block_hash`). -/
structure Checkpoint where
  block_height : Int
  block_hash : List Nat
deriving DecidableEq, Repr

/-- `checkpoint::PowerUpdates`: an ordered sequence of (validator public key,
new power) changes; `PowerUpdates::default()` is the empty sequence. -/
abbrev PowerUpdates := List (Nat × Nat)

/-- Modelled from the spec: the on-chain gateway data that
`maybe_create_checkpoint` and `unsigned_checkpoints` consult
(`checkpoint.rs` is not in `src/`): the configured bottom-up check period,
the current power table and the table recorded at the previous checkpoint,
the checkpoints of the still-open commit window, and the validator
signatures recorded on-chain, as (public key, checkpoint height) pairs. -/
structure GatewayState where
  bottom_up_check_period : Int
  current_power_table : List (Nat × Nat)
  prev_power_table : List (Nat × Nat)
  checkpoints : List Checkpoint
  signatures : List (Nat × Int)

/-- The execution state `FvmExecState` together with the external
`StateExecutor` capability.  The capability is modelled as two oracles
(one for implicit, one for explicit execution) indexed by a step counter so
that successive executions may return different results; `executed_implicit`
is a ghost ledger of the implicit messages executed so far, and `tx_logs`
a ghost ledger of the observability records emitted by `deliver`. -/
structure FvmExecState where
  block_height : Int
  chain_id : Nat
  block_hash : Option (List Nat)
  app_version : Nat
  actor_sequences : Address → Nat
  gateway : GatewayState
  exec_step : Nat
  implicit_oracle : Nat → FvmMessage → Except String (ApplyRet × Emitters)
  explicit_oracle : Nat → FvmMessage → Except String (ApplyRet × Emitters)
  gas_fees_charged : Nat
  executed_implicit : List FvmMessage
  tx_logs : List TraceRecord

/-- Modelled from the spec: `FvmExecState::execute_implicit` (`state.rs` is
not in `src/`): execute the message against the state with no nonce or fee
checks, returning the apply result and emitters; the ghost ledger records
the executed message. -/
def execute_implicit (st : FvmExecState) (msg : FvmMessage) :
    Except String (FvmExecState × ApplyRet × Emitters) :=
  match st.implicit_oracle st.exec_step msg with
  | .error e => .error e
  | .ok (ret, em) =>
      .ok ({ st with
              exec_step := st.exec_step + 1,
              executed_implicit := st.executed_implicit ++ [msg] }, ret, em)

/-- Modelled from the spec: `FvmExecState::execute_explicit` (`state.rs` is
not in `src/`): the nonce is checked against the sender's expected sequence —
a mismatched sequence is rejected with a `SYS_SENDER_STATE_INVALID` receipt
and the message is not applied — and on success gas fees are charged per the
sender's premium against the actual gas used and the sender's sequence is
advanced. -/
def execute_explicit (st : FvmExecState) (msg : FvmMessage) :
    Except String (FvmExecState × ApplyRet × Emitters) :=
  if msg.sequence = st.actor_sequences msg.«from» then
    match st.explicit_oracle st.exec_step msg with
    | .error e => .error e
    | .ok (ret, em) =>
        .ok ({ st with
                exec_step := st.exec_step + 1,
                actor_sequences := fun a =>
                  if a = msg.«from» then st.actor_sequences msg.«from» + 1
                  else st.actor_sequences a,
                gas_fees_charged :=
                  st.gas_fees_charged + msg.gas_premium * ret.msg_receipt.gas_used },
             ret, em)
  else
    .ok (st,
         { msg_receipt :=
             { exit_code := SYS_SENDER_STATE_INVALID,
               return_data := .empty,
               gas_used := 0 },
           failure_info := none },
         [])

/-- The extended return value `FvmApplyRet` of `exec.rs`: the apply result
plus the restated from/to/method/gas-limit and the event emitters. -/
structure FvmApplyRet where
  apply_ret : ApplyRet
  «from» : Address
  «to» : Address
  method_num : Nat
  gas_limit : Nat
  emitters : Emitters

/-- The tail of `deliver` after execution: emit the `tx delivered`
observability record (height, from, to, method, exit code, gas used) into the
ghost log and wrap the result into an `FvmApplyRet` restating the message's
from/to/method/gas-limit. -/
def deliver_wrap (msg : FvmMessage)
    (res : Except String (FvmExecState × ApplyRet × Emitters)) :
    Except String (FvmExecState × FvmApplyRet) :=
  match res with
  | .error e => .error e
  | .ok (st1, apply_ret, emitters) =>
      let rec1 : TraceRecord :=
        { height := st1.block_height,
          «from» := msg.«from»,
          «to» := msg.«to»,
          method_num := msg.method_num,
          exit_code := apply_ret.msg_receipt.exit_code,
          gas_used := apply_ret.msg_receipt.gas_used }
      .ok ({ st1 with tx_logs := st1.tx_logs ++ [rec1] },
           { apply_ret := apply_ret,
             «from» := msg.«from»,
             «to» := msg.«to»,
             method_num := msg.method_num,
             gas_limit := msg.gas_limit,
             emitters := emitters })

/-- `deliver` from `exec.rs`: dispatch on the sender — the reserved system
actor address goes down the implicit path, everything else down the explicit
path — then emit the observability record and wrap the result. -/
def deliver (st : FvmExecState) (msg : FvmMessage) :
    Except String (FvmExecState × FvmApplyRet) :=
  deliver_wrap msg
    (if msg.«from» = SYSTEM_ACTOR_ADDR then execute_implicit st msg
     else execute_explicit st msg)

/-- A scheduled upgrade (`UpgradeScheduler` entry): executing it may change
the state and may return a new application version. -/
structure Upgrade where
  execute : FvmExecState → Except String (FvmExecState × Option Nat)

/-- `ValidatorContext`: key material identifying a checkpoint signer. -/
structure ValidatorContext where
  public_key : Nat
deriving DecidableEq, Repr

/-- The `FvmMessageInterpreter` fields that `begin`/`end` read: the upgrade
scheduler, the chain-metadata toggle, the optional validator context, and
the syncing status (`self.syncing().await`, modelled as a flag). -/
structure FvmMessageInterpreter where
  upgrade_scheduler : Nat → Nat → Option Upgrade
  push_chain_meta : Bool
  validator_ctx : Option ValidatorContext
  is_syncing : Bool

/-- The upgrade step at the top of `begin`: look up a scheduled migration for
(chain id, height); if present execute it — failure is fatal — and apply any
new application version it returns. -/
def apply_upgrade (i : FvmMessageInterpreter) (st : FvmExecState) :
    Except String FvmExecState :=
  match i.upgrade_scheduler st.chain_id st.block_height.toNat with
  | none => .ok st
  | some up =>
      match up.execute st with
      | .error e => .error ("upgrade failed: " ++ e)
      | .ok (st1, some v) => .ok { st1 with app_version := v }
      | .ok (st1, none) => .ok st1

/-- The synthetic cron message `begin` builds: system actor to cron actor,
sequence = height, the deliberately huge gas limit, empty params. -/
def cron_message (height : Int) : FvmMessage :=
  { version := 0,
    «from» := SYSTEM_ACTOR_ADDR,
    «to» := CRON_ACTOR_ADDR,
    sequence := height.toNat,
    value := 0,
    method_num := CRON_EPOCH_TICK,
    params := .empty,
    gas_limit := BLOCK_GAS_LIMIT * 10000,
    gas_fee_cap := 0,
    gas_premium := 0 }

/-- The chain-metadata push message `begin` builds when enabled and a block
hash is available: system actor to metadata actor, carrying (height, hash). -/
def chainmetadata_message (height : Int) (block_hash : List Nat) : FvmMessage :=
  { version := 0,
    «from» := SYSTEM_ACTOR_ADDR,
    «to» := CHAINMETADATA_ACTOR_ADDR,
    sequence := height.toNat,
    value := 0,
    method_num := METHOD_PUSH_BLOCK_HASH,
    params := .pushBlockParams height block_hash,
    gas_limit := BLOCK_GAS_LIMIT * 10000,
    gas_fee_cap := 0,
    gas_premium := 0 }

/-- The shape shared by the six machine-learning messages `begin` builds:
system actor to machine-learning actor, sequence = height, huge gas limit. -/
def ml_message (height : Int) (method_num : Nat) (params : RawBytes) : FvmMessage :=
  { version := 0,
    «from» := SYSTEM_ACTOR_ADDR,
    «to» := MACHINELEARNING_ACTOR_ADDR,
    sequence := height.toNat,
    value := 0,
    method_num := method_num,
    params := params,
    gas_limit := BLOCK_GAS_LIMIT * 10000,
    gas_fee_cap := 0,
    gas_premium := 0 }

/-- Hardcoded training matrix of the "linear regression test" in `begin`. -/
def linear_train_input_matrix : List (List Int) :=
  [[234, 235, 159, 107, 1947, 60],
   [259, 232, 145, 108, 1948, 61],
   [258, 368, 161, 109, 1949, 60],
   [284, 335, 165, 110, 1950, 61],
   [328, 209, 309, 112, 1951, 63],
   [346, 193, 359, 113, 1952, 63],
   [365, 187, 354, 115, 1953, 64],
   [363, 357, 335, 116, 1954, 63],
   [397, 290, 304, 117, 1955, 66],
   [419, 282, 285, 118, 1956, 67],
   [442, 293, 279, 120, 1957, 68],
   [444, 468, 263, 121, 1958, 66],
   [482, 381, 255, 123, 1959, 68],
   [502, 393, 251, 125, 1960, 69],
   [518, 480, 257, 127, 1961, 69],
   [554, 400, 282, 130, 1962, 70]]

/-- Hardcoded labels of the "linear regression test" in `begin`. -/
def linear_train_labels : List Int :=
  [83, 88, 88, 89, 96, 98, 99, 100, 101, 104, 108, 110, 112, 114, 115, 116]

/-- Hardcoded prediction matrix of the "linear regression test" in `begin`. -/
def linear_predict_input_matrix : List (List Int) :=
  [[234, 235, 159, 107, 1947, 60],
   [259, 232, 145, 108, 1948, 61],
   [258, 368, 161, 109, 1949, 60],
   [284, 335, 165, 110, 1950, 61],
   [328, 209, 309, 112, 1951, 63],
   [346, 193, 359, 113, 1952, 63],
   [365, 187, 354, 115, 1953, 64],
   [363, 357, 335, 116, 1954, 63]]

/-- Hardcoded training matrix of the "logistic regression test" in `begin`. -/
def logistic_train_input_matrix : List (List Int) :=
  [[510, 350, 140, 20],
   [490, 300, 140, 20],
   [470, 320, 130, 20],
   [460, 310, 150, 20],
   [500, 360, 140, 20],
   [540, 390, 170, 40],
   [460, 340, 140, 30],
   [500, 340, 150, 20],
   [440, 290, 140, 20],
   [490, 310, 150, 10],
   [700, 320, 470, 140],
   [640, 320, 450, 150],
   [690, 310, 490, 150],
   [550, 230, 400, 130],
   [650, 280, 460, 150],
   [570, 280, 450, 130],
   [630, 330, 470, 160],
   [490, 240, 330, 100],
   [660, 290, 460, 130],
   [520, 270, 390, 140]]

/-- Hardcoded labels of the "logistic regression test" in `begin`. -/
def logistic_train_labels : List Int :=
  [0, 0, 0, 0, 0, 0, 0, 0, 0, 0, 1, 1, 1, 1, 1, 1, 1, 1, 1, 1]

/-- Hardcoded prediction matrix of the "logistic regression test" in `begin`. -/
def logistic_predict_input_matrix : List (List Int) :=
  [[570, 280, 450, 130],
   [630, 330, 470, 160],
   [490, 240, 330, 100],
   [660, 290, 460, 130],
   [520, 270, 390, 140]]

/-- Hardcoded training matrix of the "knn regression test" in `begin`. -/
def knn_train_input_matrix : List (List Int) :=
  [[100, 100], [200, 200], [300, 300], [400, 400], [500, 500]]

/-- Hardcoded labels of the "knn regression test" in `begin`. -/
def knn_train_labels : List Int :=
  [100, 200, 300, 400, 500]

/-- Hardcoded prediction matrix of the "knn regression test" in `begin`. -/
def knn_predict_input_matrix : List (List Int) :=
  [[100, 100], [200, 200], [300, 300], [400, 400], [500, 500]]

/-- The "linear regression test" block embedded in `begin` (exec.rs lines
135–244): train, bail on failure info, deserialize the model (`unwrap`,
modelled as an error on panic), predict with it, bail on failure info,
deserialize the predictions. -/
def run_linear_regression_block (height : Int) (st : FvmExecState) :
    Except String FvmExecState :=
  match execute_implicit st
      (ml_message height METHOD_TRAIN_LINEAR_REGRESSION
        (.trainLinearRegressionParams linear_train_input_matrix linear_train_labels)) with
  | .error e => .error e
  | .ok (st1, ret, _) =>
      match ret.failure_info with
      | some err => .error ("failed to apply customsyscall message: " ++ err)
      | none =>
          match ret.msg_receipt.return_data.asVecU8 with
          | none => .error "panic: could not deserialize train result"
          | some val =>
              match execute_implicit st1
                  (ml_message height METHOD_PREDICT_LINEAR_REGRESSION
                    (.predictLinearRegressionParams linear_predict_input_matrix val)) with
              | .error e => .error e
              | .ok (st2, pret, _) =>
                  match pret.failure_info with
                  | some err =>
                      .error ("failed to apply predict_linear_regression_syscall message: " ++ err)
                  | none =>
                      match pret.msg_receipt.return_data.asVecI64 with
                      | none => .error "panic: could not deserialize prediction results"
                      | some _ => .ok st2

/-- The "logistic regression test" block embedded in `begin` (exec.rs lines
246–355); note the source reuses the `TrainLinearRegressionParams` struct
for the logistic training call. -/
def run_logistic_regression_block (height : Int) (st : FvmExecState) :
    Except String FvmExecState :=
  match execute_implicit st
      (ml_message height METHOD_TRAIN_LOGISTIC_REGRESSION
        (.trainLinearRegressionParams logistic_train_input_matrix logistic_train_labels)) with
  | .error e => .error e
  | .ok (st1, ret, _) =>
      match ret.failure_info with
      | some err => .error ("failed to apply customsyscall message: " ++ err)
      | none =>
          match ret.msg_receipt.return_data.asVecU8 with
          | none => .error "panic: could not deserialize train result"
          | some val =>
              match execute_implicit st1
                  (ml_message height METHOD_PREDICT_LOGISTIC_REGRESSION
                    (.predictLogisticRegressionParams logistic_predict_input_matrix val)) with
              | .error e => .error e
              | .ok (st2, pret, _) =>
                  match pret.failure_info with
                  | some err =>
                      .error ("failed to apply predict_logistic_regression_syscall message: " ++ err)
                  | none =>
                      match pret.msg_receipt.return_data.asVecI64 with
                      | none => .error "panic: could not deserialize prediction results"
                      | some _ => .ok st2

/-- The "knn regression test" block embedded in `begin` (exec.rs lines
357–449). -/
def run_knn_regression_block (height : Int) (st : FvmExecState) :
    Except String FvmExecState :=
  match execute_implicit st
      (ml_message height METHOD_TRAIN_KNN_REGRESSION
        (.trainKNNRegressionParams knn_train_input_matrix knn_train_labels)) with
  | .error e => .error e
  | .ok (st1, ret, _) =>
      match ret.failure_info with
      | some err => .error ("failed to apply customsyscall message: " ++ err)
      | none =>
          match ret.msg_receipt.return_data.asVecU8 with
          | none => .error "panic: could not deserialize train result"
          | some val =>
              match execute_implicit st1
                  (ml_message height METHOD_PREDICT_KNN_REGRESSION
                    (.predictKNNRegressionParams knn_predict_input_matrix val)) with
              | .error e => .error e
              | .ok (st2, pret, _) =>
                  match pret.failure_info with
                  | some err =>
                      .error ("failed to apply predict_knn_regression_syscall message: " ++ err)
                  | none =>
                      match pret.msg_receipt.return_data.asVecI64 with
                      | none => .error "panic: could not deserialize prediction results"
                      | some _ => .ok st2

/-- The chain-metadata step of `begin`: when `push_chain_meta` is set and a
block hash is available, build and execute the push message implicitly;
failure info is fatal; with no hash the step is silently skipped. -/
def run_chainmetadata_step (i : FvmMessageInterpreter) (height : Int)
    (st : FvmExecState) : Except String FvmExecState :=
  if i.push_chain_meta then
    match st.block_hash with
    | some bh =>
        match execute_implicit st (chainmetadata_message height bh) with
        | .error e => .error e
        | .ok (st1, ret, _) =>
            match ret.failure_info with
            | some err => .error ("failed to apply chainmetadata message: " ++ err)
            | none => .ok st1
    | none => .ok st
  else .ok st

/-- `begin` from `exec.rs`: run any scheduled upgrade, execute the cron tick
implicitly (failure info is fatal), run the chain-metadata step, then the
three embedded machine-learning test blocks, and return the `FvmApplyRet`
built from the cron execution's result and restated cron fields.  The
`try_into().unwrap()` of the height into `u64` is modelled as an error on a
negative height. -/
def begin (i : FvmMessageInterpreter) (st0 : FvmExecState) :
    Except String (FvmExecState × FvmApplyRet) :=
  if st0.block_height < 0 then .error "panic: block height does not fit in u64" else
  match apply_upgrade i st0 with
  | .error e => .error e
  | .ok st1 =>
      match execute_implicit st1 (cron_message st0.block_height) with
      | .error e => .error e
      | .ok (st2, apply_ret, emitters) =>
          match apply_ret.failure_info with
          | some err => .error ("failed to apply block cron message: " ++ err)
          | none =>
              match run_chainmetadata_step i st0.block_height st2 with
              | .error e => .error e
              | .ok st3 =>
                  match run_linear_regression_block st0.block_height st3 with
                  | .error e => .error e
                  | .ok st4 =>
                      match run_logistic_regression_block st0.block_height st4 with
                      | .error e => .error e
                      | .ok st5 =>
                          match run_knn_regression_block st0.block_height st5 with
                          | .error e => .error e
                          | .ok st6 =>
                              .ok (st6,
                                   { apply_ret := apply_ret,
                                     «from» := SYSTEM_ACTOR_ADDR,
                                     «to» := CRON_ACTOR_ADDR,
                                     method_num := CRON_EPOCH_TICK,
                                     gas_limit := BLOCK_GAS_LIMIT * 10000,
                                     emitters := emitters })

/-- Modelled from the spec: the validator power deltas computed by diffing
the gateway's recorded power table against its state at the previous
checkpoint — every (validator, power) pair of the current table whose power
differs from the previously recorded one. -/
def power_diff (prev cur : List (Nat × Nat)) : PowerUpdates :=
  cur.filter (fun p => (prev.lookup p.1).getD 0 ≠ p.2)

/-- Modelled from the spec: `checkpoint::maybe_create_checkpoint`
(`checkpoint.rs` is not in `src/`).  A checkpoint is due when the height is a
positive multiple of the configured bottom-up check period; when due, a
missing block hash is an error; creation is idempotent (a checkpoint already
recorded for this height is not duplicated); otherwise the checkpoint is
assembled, recorded on the gateway, and returned with the power updates. -/
def maybe_create_checkpoint (st : FvmExecState) :
    Except String (Option (Checkpoint × PowerUpdates) × FvmExecState) :=
  if 0 < st.block_height ∧ 0 < st.gateway.bottom_up_check_period ∧
      st.block_height % st.gateway.bottom_up_check_period = 0 then
    match st.block_hash with
    | none => .error "block hash not available when checkpoint due"
    | some bh =>
        if st.gateway.checkpoints.any (fun c => c.block_height == st.block_height) then
          .ok (none, st)
        else
          .ok (some ({ block_height := st.block_height, block_hash := bh },
                     power_diff st.gateway.prev_power_table st.gateway.current_power_table),
               { st with gateway :=
                   { st.gateway with
                       checkpoints :=
                         { block_height := st.block_height, block_hash := bh } ::
                           st.gateway.checkpoints,
                       prev_power_table := st.gateway.current_power_table } })
  else .ok (none, st)

/-- Insert a checkpoint into a list sorted by ascending block height. -/
def insertByHeight (c : Checkpoint) : List Checkpoint → List Checkpoint
  | [] => [c]
  | d :: ds =>
      if c.block_height ≤ d.block_height then c :: d :: ds
      else d :: insertByHeight c ds

/-- Sort checkpoints by ascending block height. -/
def sortByHeight : List Checkpoint → List Checkpoint
  | [] => []
  | c :: cs => insertByHeight c (sortByHeight cs)

/-- Modelled from the spec: `checkpoint::unsigned_checkpoints`
(`checkpoint.rs` is not in `src/`): the checkpoints of the still-open commit
window that lack this validator's signature among those recorded on-chain,
ordered by height. -/
def unsigned_checkpoints (st : FvmExecState) (public_key : Nat) : List Checkpoint :=
  sortByHeight
    (st.gateway.checkpoints.filter
      (fun c => ¬ (public_key, c.block_height) ∈ st.gateway.signatures))

/-- The background signature-broadcast operation dispatched by `end` via
`tokio::spawn`, recorded as data: the signer, the synchronously computed
incomplete-checkpoint list, the result of the `debug_assert!` that the
just-created checkpoint is among them, and the checkpoint height. -/
structure BroadcastDispatch where
  validator_pk : Nat
  incomplete_checkpoints : List Checkpoint
  assert_current_incomplete : Bool
  height : Int

/-- `end` from `exec.rs`: ask `maybe_create_checkpoint`; without a checkpoint
return the default (empty) power updates; with one, dispatch the signature
broadcast only when a validator context is held and the node is not syncing,
first computing the incomplete checkpoints synchronously and checking the
`debug_assert!` that the just-created checkpoint is among them.  The
dispatched background operation is returned as data in the third component. -/
def «end» (i : FvmMessageInterpreter) (st : FvmExecState) :
    Except String (FvmExecState × PowerUpdates × Option BroadcastDispatch) :=
  match maybe_create_checkpoint st with
  | .error e => .error ("failed to create checkpoint: " ++ e)
  | .ok (none, st1) => .ok (st1, [], none)
  | .ok (some (cp, updates), st1) =>
      match i.validator_ctx with
      | none => .ok (st1, updates, none)
      | some ctx =>
          if i.is_syncing then .ok (st1, updates, none)
          else
            let incomplete := unsigned_checkpoints st1 ctx.public_key
            let assertOk := incomplete.any
              (fun c => c.block_height == cp.block_height && c.block_hash == cp.block_hash)
            .ok (st1, updates,
                 some { validator_pk := ctx.public_key,
                        incomplete_checkpoints := incomplete,
                        assert_current_incomplete := assertOk,
                        height := cp.block_height })

/-- A benign state-executor oracle for concrete runs: every message succeeds
with exit code 0, some gas used, and a payload deserializable the way the
caller expects (integer vectors for the prediction methods, byte vectors
otherwise). -/
def benign_oracle : Nat → FvmMessage → Except String (ApplyRet × Emitters) :=
  fun _ msg =>
    .ok ({ msg_receipt :=
             { exit_code := 0,
               return_data :=
                 if msg.method_num = METHOD_PREDICT_LINEAR_REGRESSION ∨
                    msg.method_num = METHOD_PREDICT_LOGISTIC_REGRESSION ∨
                    msg.method_num = METHOD_PREDICT_KNN_REGRESSION
                 then .serializedVecI64 []
                 else .serializedVecU8 [],
               gas_used := 42 },
           failure_info := none }, [])

/-- An oracle whose every execution reports failure info. -/
def failing_oracle : Nat → FvmMessage → Except String (ApplyRet × Emitters) :=
  fun _ _ =>
    .ok ({ msg_receipt :=
             { exit_code := 7, return_data := .serializedVecU8 [], gas_used := 0 },
           failure_info := some "boom" }, [])

/-- A concrete gateway state for concrete runs. -/
def sample_gateway : GatewayState :=
  { bottom_up_check_period := 100,
    current_power_table := [(11, 5)],
    prev_power_table := [(11, 5)],
    checkpoints := [],
    signatures := [] }

/-- A concrete execution state at height 7 with a block hash available. -/
def sample_state : FvmExecState :=
  { block_height := 7,
    chain_id := 1,
    block_hash := some [170, 187],
    app_version := 0,
    actor_sequences := fun _ => 0,
    gateway := sample_gateway,
    exec_step := 0,
    implicit_oracle := benign_oracle,
    explicit_oracle := benign_oracle,
    gas_fees_charged := 0,
    executed_implicit := [],
    tx_logs := [] }

/-- A concrete interpreter: no upgrades scheduled, chain-metadata push
disabled, no validator context, not syncing. -/
def sample_interp : FvmMessageInterpreter :=
  { upgrade_scheduler := fun _ _ => none,
    push_chain_meta := false,
    validator_ctx := none,
    is_syncing := false }

theorem apply_upgrade_none {i : FvmMessageInterpreter} {st : FvmExecState}
    (h : i.upgrade_scheduler st.chain_id st.block_height.toNat = none) :
    apply_upgrade i st = .ok st := by
  unfold apply_upgrade
  rw [h]

theorem execute_implicit_ok_spec {st : FvmExecState} {msg : FvmMessage}
    {st' : FvmExecState} {r : ApplyRet} {em : Emitters}
    (h : execute_implicit st msg = .ok (st', r, em)) :
    st'.block_height = st.block_height ∧ st'.block_hash = st.block_hash ∧
    st'.chain_id = st.chain_id ∧ st'.gateway = st.gateway ∧
    st'.executed_implicit = st.executed_implicit ++ [msg] := by
  unfold execute_implicit at h
  split at h
  · exact absurd h (by simp)
  · simp only [Except.ok.injEq, Prod.mk.injEq] at h
    obtain ⟨h1, -, -⟩ := h
    subst h1
    exact ⟨rfl, rfl, rfl, rfl, rfl⟩

theorem run_chainmetadata_step_trace {i : FvmMessageInterpreter} {h : Int}
    {st st' : FvmExecState} (hok : run_chainmetadata_step i h st = .ok st') :
    st'.block_height = st.block_height ∧ st'.block_hash = st.block_hash ∧
    st'.chain_id = st.chain_id ∧ st'.gateway = st.gateway ∧
    ((i.push_chain_meta = true ∧ ∃ bh, st.block_hash = some bh ∧
        st'.executed_implicit = st.executed_implicit ++ [chainmetadata_message h bh]) ∨
     ((i.push_chain_meta = false ∨ st.block_hash = none) ∧
        st'.executed_implicit = st.executed_implicit)) := by
  unfold run_chainmetadata_step at hok
  split at hok
  · rename_i hpush
    split at hok
    · rename_i bh hbh
      split at hok
      · exact absurd hok (by simp)
      · rename_i st1 ret em he
        split at hok
        · exact absurd hok (by simp)
        · rename_i hf
          simp only [Except.ok.injEq] at hok
          subst hok
          obtain ⟨p1, p2, p3, p4, p5⟩ := execute_implicit_ok_spec he
          exact ⟨p1, p2, p3, p4, Or.inl ⟨hpush, bh, hbh, p5⟩⟩
    · rename_i hbh
      simp only [Except.ok.injEq] at hok
      subst hok
      exact ⟨rfl, rfl, rfl, rfl, Or.inr ⟨Or.inr hbh, rfl⟩⟩
  · rename_i hpush
    simp only [Except.ok.injEq] at hok
    subst hok
    exact ⟨rfl, rfl, rfl, rfl,
           Or.inr ⟨Or.inl (Bool.not_eq_true _ ▸ Bool.eq_false_iff.mpr hpush), rfl⟩⟩

theorem run_linear_regression_block_trace {h : Int} {st st' : FvmExecState}
    (hok : run_linear_regression_block h st = .ok st') :
    st'.block_height = st.block_height ∧ st'.block_hash = st.block_hash ∧
    st'.chain_id = st.chain_id ∧ st'.gateway = st.gateway ∧
    ∃ tail, st'.executed_implicit = st.executed_implicit ++ tail ∧
      ∀ m ∈ tail, m.«to» = MACHINELEARNING_ACTOR_ADDR := by
  unfold run_linear_regression_block at hok
  split at hok
  · exact absurd hok (by simp)
  · rename_i st1 ret em he1
    split at hok
    · exact absurd hok (by simp)
    · split at hok
      · exact absurd hok (by simp)
      · rename_i val hval
        split at hok
        · exact absurd hok (by simp)
        · rename_i st2 pret pem he2
          split at hok
          · exact absurd hok (by simp)
          · split at hok
            · exact absurd hok (by simp)
            · simp only [Except.ok.injEq] at hok
              subst hok
              obtain ⟨a1, a2, a3, a4, a5⟩ := execute_implicit_ok_spec he1
              obtain ⟨b1, b2, b3, b4, b5⟩ := execute_implicit_ok_spec he2
              refine ⟨by rw [b1, a1], by rw [b2, a2], by rw [b3, a3], by rw [b4, a4], ?_⟩
              refine ⟨_, by rw [b5, a5, List.append_assoc], ?_⟩
              intro m hm
              simp only [List.singleton_append, List.mem_cons,
                         List.not_mem_nil, or_false] at hm
              rcases hm with rfl | rfl
              · rfl
              · rfl

theorem run_logistic_regression_block_trace {h : Int} {st st' : FvmExecState}
    (hok : run_logistic_regression_block h st = .ok st') :
    st'.block_height = st.block_height ∧ st'.block_hash = st.block_hash ∧
    st'.chain_id = st.chain_id ∧ st'.gateway = st.gateway ∧
    ∃ tail, st'.executed_implicit = st.executed_implicit ++ tail ∧
      ∀ m ∈ tail, m.«to» = MACHINELEARNING_ACTOR_ADDR := by
  unfold run_logistic_regression_block at hok
  split at hok
  · exact absurd hok (by simp)
  · rename_i st1 ret em he1
    split at hok
    · exact absurd hok (by simp)
    · split at hok
      · exact absurd hok (by simp)
      · rename_i val hval
        split at hok
        · exact absurd hok (by simp)
        · rename_i st2 pret pem he2
          split at hok
          · exact absurd hok (by simp)
          · split at hok
            · exact absurd hok (by simp)
            · simp only [Except.ok.injEq] at hok
              subst hok
              obtain ⟨a1, a2, a3, a4, a5⟩ := execute_implicit_ok_spec he1
              obtain ⟨b1, b2, b3, b4, b5⟩ := execute_implicit_ok_spec he2
              refine ⟨by rw [b1, a1], by rw [b2, a2], by rw [b3, a3], by rw [b4, a4], ?_⟩
              refine ⟨_, by rw [b5, a5, List.append_assoc], ?_⟩
              intro m hm
              simp only [List.singleton_append, List.mem_cons,
                         List.not_mem_nil, or_false] at hm
              rcases hm with rfl | rfl
              · rfl
              · rfl

theorem run_knn_regression_block_trace {h : Int} {st st' : FvmExecState}
    (hok : run_knn_regression_block h st = .ok st') :
    st'.block_height = st.block_height ∧ st'.block_hash = st.block_hash ∧
    st'.chain_id = st.chain_id ∧ st'.gateway = st.gateway ∧
    ∃ tail, st'.executed_implicit = st.executed_implicit ++ tail ∧
      ∀ m ∈ tail, m.«to» = MACHINELEARNING_ACTOR_ADDR := by
  unfold run_knn_regression_block at hok
  split at hok
  · exact absurd hok (by simp)
  · rename_i st1 ret em he1
    split at hok
    · exact absurd hok (by simp)
    · split at hok
      · exact absurd hok (by simp)
      · rename_i val hval
        split at hok
        · exact absurd hok (by simp)
        · rename_i st2 pret pem he2
          split at hok
          · exact absurd hok (by simp)
          · split at hok
            · exact absurd hok (by simp)
            · simp only [Except.ok.injEq] at hok
              subst hok
              obtain ⟨a1, a2, a3, a4, a5⟩ := execute_implicit_ok_spec he1
              obtain ⟨b1, b2, b3, b4, b5⟩ := execute_implicit_ok_spec he2
              refine ⟨by rw [b1, a1], by rw [b2, a2], by rw [b3, a3], by rw [b4, a4], ?_⟩
              refine ⟨_, by rw [b5, a5, List.append_assoc], ?_⟩
              intro m hm
              simp only [List.singleton_append, List.mem_cons,
                         List.not_mem_nil, or_false] at hm
              rcases hm with rfl | rfl
              · rfl
              · rfl

theorem begin_ok_spec {i : FvmMessageInterpreter} {st st' : FvmExecState}
    {out : FvmApplyRet} (h : IpcExec.begin i st = .ok (st', out)) :
    ¬ st.block_height < 0 ∧
    ∃ st1 st2 em st3 st4 st5,
      apply_upgrade i st = .ok st1 ∧
      execute_implicit st1 (cron_message st.block_height) = .ok (st2, out.apply_ret, em) ∧
      out.apply_ret.failure_info = none ∧
      run_chainmetadata_step i st.block_height st2 = .ok st3 ∧
      run_linear_regression_block st.block_height st3 = .ok st4 ∧
      run_logistic_regression_block st.block_height st4 = .ok st5 ∧
      run_knn_regression_block st.block_height st5 = .ok st' ∧
      out.«from» = SYSTEM_ACTOR_ADDR ∧ out.«to» = CRON_ACTOR_ADDR ∧
      out.method_num = CRON_EPOCH_TICK ∧ out.gas_limit = BLOCK_GAS_LIMIT * 10000 ∧
      out.emitters = em := by
  unfold IpcExec.begin at h
  split at h
  · exact absurd h (by simp)
  · rename_i hneg
    split at h
    · exact absurd h (by simp)
    · rename_i st1 hup
      split at h
      · exact absurd h (by simp)
      · rename_i st2 apply_ret em hcron
        split at h
        · exact absurd h (by simp)
        · rename_i hnofail
          split at h
          · exact absurd h (by simp)
          · rename_i st3 hmeta
            split at h
            · exact absurd h (by simp)
            · rename_i st4 hlin
              split at h
              · exact absurd h (by simp)
              · rename_i st5 hlog
                split at h
                · exact absurd h (by simp)
                · rename_i st6 hknn
                  simp only [Except.ok.injEq, Prod.mk.injEq] at h
                  obtain ⟨h1, h2⟩ := h
                  subst h1
                  subst h2
                  exact ⟨hneg, st1, st2, em, st3, st4, st5,
                         hup, hcron, hnofail, hmeta, hlin, hlog, hknn,
                         rfl, rfl, rfl, rfl, rfl⟩

/-- Claim C1 (code bug): the spec says `begin` builds and executes only the
implicit messages it enumerates — migration, cron tick, optional
chain-metadata push — and that the machine-learning train/predict calls are
not part of the per-block system-message path.  Evaluating the embedded
`begin` on a concrete benign state (metadata push disabled) shows the code
executes the cron tick followed by six implicit messages addressed to the
machine-learning actor, every block. -/
theorem C1_begin_executes_ml_messages :
    (IpcExec.begin sample_interp sample_state).map
        (fun p => p.1.executed_implicit.map (fun m => m.«to»)) =
      .ok [CRON_ACTOR_ADDR,
           MACHINELEARNING_ACTOR_ADDR, MACHINELEARNING_ACTOR_ADDR,
           MACHINELEARNING_ACTOR_ADDR, MACHINELEARNING_ACTOR_ADDR,
           MACHINELEARNING_ACTOR_ADDR, MACHINELEARNING_ACTOR_ADDR] := by
  rfl

theorem begin_cron_failure_error {i : FvmMessageInterpreter} {st st1 : FvmExecState}
    (h0 : 0 ≤ st.block_height) (hup : apply_upgrade i st = .ok st1)
    {st2 : FvmExecState} {ret : ApplyRet} {em : Emitters} {err : String}
    (hcron : execute_implicit st1 (cron_message st.block_height) = .ok (st2, ret, em))
    (hfail : ret.failure_info = some err) :
    IpcExec.begin i st = .error ("failed to apply block cron message: " ++ err) := by
  have hlt : ¬ st.block_height < 0 := by omega
  simp [IpcExec.begin, hlt, hup, hcron, hfail]

theorem begin_meta_failure_error {i : FvmMessageInterpreter} {st st1 : FvmExecState}
    (h0 : 0 ≤ st.block_height) (hup : apply_upgrade i st = .ok st1)
    {st2 : FvmExecState} {ret : ApplyRet} {em : Emitters} {bh : List Nat}
    {st3 : FvmExecState} {ret2 : ApplyRet} {em2 : Emitters} {err : String}
    (hcron : execute_implicit st1 (cron_message st.block_height) = .ok (st2, ret, em))
    (hnone : ret.failure_info = none)
    (hpush : i.push_chain_meta = true)
    (hbh : st2.block_hash = some bh)
    (hmeta : execute_implicit st2 (chainmetadata_message st.block_height bh) = .ok (st3, ret2, em2))
    (hfail : ret2.failure_info = some err) :
    IpcExec.begin i st = .error ("failed to apply chainmetadata message: " ++ err) := by
  have hlt : ¬ st.block_height < 0 := by omega
  simp [IpcExec.begin, run_chainmetadata_step, hlt, hup, hcron, hnone, hpush,
        hbh, hmeta, hfail]

/-- Claim C2: inside `begin`, failure info reported by an executed implicit
message — the cron tick, or the chain-metadata push when attempted — makes
`begin` return a fatal error, so no successful `BeginOutput` is produced and
the failure is never recorded in-band. -/
theorem C2_implicit_failure_fatal_in_begin
    (i : FvmMessageInterpreter) (st st1 : FvmExecState)
    (h0 : 0 ≤ st.block_height) (hup : apply_upgrade i st = .ok st1) :
    (∀ st2 ret em err,
        execute_implicit st1 (cron_message st.block_height) = .ok (st2, ret, em) →
        ret.failure_info = some err →
        IpcExec.begin i st = .error ("failed to apply block cron message: " ++ err)) ∧
    (∀ st2 ret em bh st3 ret2 em2 err,
        execute_implicit st1 (cron_message st.block_height) = .ok (st2, ret, em) →
        ret.failure_info = none →
        i.push_chain_meta = true →
        st2.block_hash = some bh →
        execute_implicit st2 (chainmetadata_message st.block_height bh) = .ok (st3, ret2, em2) →
        ret2.failure_info = some err →
        IpcExec.begin i st = .error ("failed to apply chainmetadata message: " ++ err)) := by
  constructor
  · intro st2 ret em err hcron hfail
    exact begin_cron_failure_error h0 hup hcron hfail
  · intro st2 ret em bh st3 ret2 em2 err hcron hnone hpush hbh hmeta hfail
    exact begin_meta_failure_error h0 hup hcron hnone hpush hbh hmeta hfail

/-- Witness for C2: a concrete state whose cron execution reports failure
info makes `begin` return the fatal cron error. -/
theorem C2_witness :
    IpcExec.begin sample_interp
        { sample_state with implicit_oracle := failing_oracle } =
      .error ("failed to apply block cron message: " ++ "boom") := by
  exact (C2_implicit_failure_fatal_in_begin sample_interp
          { sample_state with implicit_oracle := failing_oracle }
          { sample_state with implicit_oracle := failing_oracle }
          (by decide) rfl).1 _ _ _ "boom" rfl rfl

/-- Claim C5: whenever `begin` succeeds, its `BeginOutput` describes the cron
call — from the system actor, to the cron actor, the EpochTick method, the
cron message's gas limit — and its apply result is exactly the one produced
by executing the cron message, not by any later implicit execution. -/
theorem C5_begin_output_describes_cron
    (i : FvmMessageInterpreter) (st st' : FvmExecState) (out : FvmApplyRet)
    (h : IpcExec.begin i st = .ok (st', out)) :
    out.«from» = SYSTEM_ACTOR_ADDR ∧ out.«to» = CRON_ACTOR_ADDR ∧
    out.method_num = CRON_EPOCH_TICK ∧
    out.gas_limit = (cron_message st.block_height).gas_limit ∧
    ∃ st1 st2 em,
      apply_upgrade i st = .ok st1 ∧
      execute_implicit st1 (cron_message st.block_height) = .ok (st2, out.apply_ret, em) ∧
      out.emitters = em := by
  obtain ⟨-, st1, st2, em, st3, st4, st5, hup, hcron, -, -, -, -, -,
          hf, ht, hm, hg, hem⟩ := begin_ok_spec h
  exact ⟨hf, ht, hm, hg, st1, st2, em, hup, hcron, hem⟩

/-- Witness for C5: on a concrete benign run the successful `BeginOutput`
carries the cron actor as target and the EpochTick method. -/
theorem C5_witness :
    ∃ st' out, IpcExec.begin sample_interp sample_state = .ok (st', out) ∧
      out.«from» = SYSTEM_ACTOR_ADDR ∧ out.«to» = CRON_ACTOR_ADDR ∧
      out.method_num = CRON_EPOCH_TICK := by
  obtain ⟨st', out, h⟩ :
      ∃ st' out, IpcExec.begin sample_interp sample_state = .ok (st', out) :=
    ⟨_, _, rfl⟩
  obtain ⟨hf, ht, hm, -⟩ := C5_begin_output_describes_cron sample_interp
    sample_state st' out h
  exact ⟨st', out, h, hf, ht, hm⟩

/-- Claim C6: `begin` executes the chain-metadata push — carrying the height
and block hash, addressed to the metadata actor — exactly when propagation is
enabled and a block hash is available; with no hash the step is skipped
silently; failure info from the push is fatal.  (Stated for blocks with no
scheduled migration, so the pre-cron state is the input state.) -/
theorem C6_chainmetadata_push_policy
    (i : FvmMessageInterpreter) (st st' : FvmExecState) (out : FvmApplyRet)
    (hnoup : i.upgrade_scheduler st.chain_id st.block_height.toNat = none) :
    (∀ bh, IpcExec.begin i st = .ok (st', out) →
        i.push_chain_meta = true → st.block_hash = some bh →
        chainmetadata_message st.block_height bh ∈ st'.executed_implicit) ∧
    (IpcExec.begin i st = .ok (st', out) →
        (i.push_chain_meta = false ∨ st.block_hash = none) →
        ∀ m ∈ st'.executed_implicit,
          m ∈ st.executed_implicit ∨ m.«to» ≠ CHAINMETADATA_ACTOR_ADDR) ∧
    (st.block_hash = none →
        run_chainmetadata_step i st.block_height st = .ok st) ∧
    (∀ st2 ret em bh st3 ret2 em2 err,
        0 ≤ st.block_height →
        execute_implicit st (cron_message st.block_height) = .ok (st2, ret, em) →
        ret.failure_info = none →
        i.push_chain_meta = true →
        st2.block_hash = some bh →
        execute_implicit st2 (chainmetadata_message st.block_height bh) = .ok (st3, ret2, em2) →
        ret2.failure_info = some err →
        IpcExec.begin i st = .error ("failed to apply chainmetadata message: " ++ err)) := by
  refine ⟨?_, ?_, ?_, ?_⟩
  · intro bh h hpush hbh
    obtain ⟨-, st1, st2, em, st3, st4, st5, hup, hcron, -, hmeta, hlin, hlog, hknn,
            -, -, -, -, -⟩ := begin_ok_spec h
    have hst1 : st1 = st := by
      have := apply_upgrade_none hnoup
      rw [this] at hup
      exact (Except.ok.injEq _ _ ▸ hup).symm
    subst hst1
    obtain ⟨-, c2, -, -, c5⟩ := execute_implicit_ok_spec hcron
    obtain ⟨-, -, -, -, hdisj⟩ := run_chainmetadata_step_trace hmeta
    rcases hdisj with ⟨-, bh2, hbh2, htr⟩ | ⟨hcontra, -⟩
    · rw [c2, hbh] at hbh2
      obtain rfl : bh = bh2 := by
        simpa using hbh2
      obtain ⟨-, -, -, -, t1, htr1, -⟩ := run_linear_regression_block_trace hlin
      obtain ⟨-, -, -, -, t2, htr2, -⟩ := run_logistic_regression_block_trace hlog
      obtain ⟨-, -, -, -, t3, htr3, -⟩ := run_knn_regression_block_trace hknn
      rw [htr3, htr2, htr1, htr]
      simp
    · rcases hcontra with hcf | hcn
      · rw [hpush] at hcf; exact absurd hcf (by simp)
      · rw [c2, hbh] at hcn; exact absurd hcn (by simp)
  · intro h hoff m hm
    obtain ⟨-, st1, st2, em, st3, st4, st5, hup, hcron, -, hmeta, hlin, hlog, hknn,
            -, -, -, -, -⟩ := begin_ok_spec h
    have hst1 : st1 = st := by
      have := apply_upgrade_none hnoup
      rw [this] at hup
      exact (Except.ok.injEq _ _ ▸ hup).symm
    subst hst1
    obtain ⟨-, c2, -, -, c5⟩ := execute_implicit_ok_spec hcron
    obtain ⟨-, -, -, -, hdisj⟩ := run_chainmetadata_step_trace hmeta
    rcases hdisj with ⟨hpush, bh2, hbh2, -⟩ | ⟨-, htr⟩
    · exfalso
      rcases hoff with hcf | hcn
      · rw [hpush] at hcf; exact absurd hcf (by simp)
      · rw [c2, hcn] at hbh2; exact absurd hbh2 (by simp)
    · obtain ⟨-, -, -, -, t1, htr1, hml1⟩ := run_linear_regression_block_trace hlin
      obtain ⟨-, -, -, -, t2, htr2, hml2⟩ := run_logistic_regression_block_trace hlog
      obtain ⟨-, -, -, -, t3, htr3, hml3⟩ := run_knn_regression_block_trace hknn
      rw [htr3, htr2, htr1, htr, c5] at hm
      simp only [List.append_assoc, List.mem_append, List.mem_singleton] at hm
      rcases hm with hold | hrest
      · exact Or.inl hold
      · rcases hrest with rfl | hrest
        · exact Or.inr (by simp [cron_message, CRON_ACTOR_ADDR, CHAINMETADATA_ACTOR_ADDR])
        · rcases hrest with h1 | hrest
          · exact Or.inr (by rw [hml1 m h1]; decide)
          · rcases hrest with h2 | h3
            · exact Or.inr (by rw [hml2 m h2]; decide)
            · exact Or.inr (by rw [hml3 m h3]; decide)
  · intro hbh
    unfold run_chainmetadata_step
    split
    · rw [hbh]
    · rfl
  · intro st2 ret em bh st3 ret2 em2 err h0 hcron hnone hpush hbh hmeta hfail
    exact begin_meta_failure_error h0 (apply_upgrade_none hnoup)
        hcron hnone hpush hbh hmeta hfail

/-- Witness for C6: with the push enabled and a block hash available, a
concrete benign run of `begin` executes the chain-metadata message carrying
the height and hash. -/
theorem C6_witness :
    ∃ st' out,
      IpcExec.begin { sample_interp with push_chain_meta := true } sample_state =
        .ok (st', out) ∧
      chainmetadata_message 7 [170, 187] ∈ st'.executed_implicit := by
  obtain ⟨st', out, h⟩ :
      ∃ st' out,
        IpcExec.begin { sample_interp with push_chain_meta := true } sample_state =
          .ok (st', out) :=
    ⟨_, _, rfl⟩
  have hmem := (C6_chainmetadata_push_policy
      { sample_interp with push_chain_meta := true } sample_state st' out rfl).1
      [170, 187] h rfl rfl
  exact ⟨st', out, h, hmem⟩

/-- A concrete user message from a non-system sender with a stale sequence
number (the expected sequence in `sample_state` is 0). -/
def sample_user_msg : FvmMessage :=
  { version := 0,
    «from» := 123,
    «to» := 7,
    sequence := 5,
    value := 0,
    method_num := 1,
    params := .empty,
    gas_limit := 100,
    gas_fee_cap := 1,
    gas_premium := 1 }

/-- Claim C3: `deliver` chooses the execution path by the sender address
alone — the reserved system actor goes down the implicit path (which touches
neither the sender sequences nor the charged fees, so any sequence number
succeeds), every other sender goes down the explicit path, where the nonce is
checked against the sender's expected sequence (a mismatch is rejected with a
`SYS_SENDER_STATE_INVALID` receipt and no state change) and gas fees are
charged against the actual gas used. -/
theorem C3_deliver_dispatch_on_sender (st : FvmExecState) (msg : FvmMessage) :
    (msg.«from» = SYSTEM_ACTOR_ADDR →
        deliver st msg = deliver_wrap msg (execute_implicit st msg)) ∧
    (msg.«from» ≠ SYSTEM_ACTOR_ADDR →
        deliver st msg = deliver_wrap msg (execute_explicit st msg)) ∧
    (∀ st1 r em, execute_implicit st msg = .ok (st1, r, em) →
        st1.actor_sequences = st.actor_sequences ∧
        st1.gas_fees_charged = st.gas_fees_charged) ∧
    (msg.sequence ≠ st.actor_sequences msg.«from» →
        execute_explicit st msg =
          .ok (st, { msg_receipt := { exit_code := SYS_SENDER_STATE_INVALID,
                                      return_data := .empty, gas_used := 0 },
                     failure_info := none }, [])) ∧
    (∀ st1 r em, msg.sequence = st.actor_sequences msg.«from» →
        execute_explicit st msg = .ok (st1, r, em) →
        st1.actor_sequences msg.«from» = st.actor_sequences msg.«from» + 1 ∧
        st1.gas_fees_charged =
          st.gas_fees_charged + msg.gas_premium * r.msg_receipt.gas_used) := by
  refine ⟨?_, ?_, ?_, ?_, ?_⟩
  · intro hf
    unfold deliver
    rw [if_pos hf]
  · intro hf
    unfold deliver
    rw [if_neg hf]
  · intro st1 r em h
    unfold execute_implicit at h
    split at h
    · exact absurd h (by simp)
    · simp only [Except.ok.injEq, Prod.mk.injEq] at h
      obtain ⟨h1, -, -⟩ := h
      subst h1
      exact ⟨rfl, rfl⟩
  · intro hseq
    unfold execute_explicit
    rw [if_neg hseq]
  · intro st1 r em hseq h
    unfold execute_explicit at h
    rw [if_pos hseq] at h
    split at h
    · exact absurd h (by simp)
    · simp only [Except.ok.injEq, Prod.mk.injEq] at h
      obtain ⟨h1, h2, -⟩ := h
      subst h1
      subst h2
      exact ⟨by simp, rfl⟩

/-- Witness for C3: in the concrete state, the stale-sequence user message is
rejected with a `SYS_SENDER_STATE_INVALID` receipt, while the same message
sent by the system actor goes down the implicit path. -/
theorem C3_witness :
    execute_explicit sample_state sample_user_msg =
      .ok (sample_state,
           { msg_receipt := { exit_code := SYS_SENDER_STATE_INVALID,
                              return_data := .empty, gas_used := 0 },
             failure_info := none }, []) ∧
    deliver sample_state { sample_user_msg with «from» := SYSTEM_ACTOR_ADDR } =
      deliver_wrap { sample_user_msg with «from» := SYSTEM_ACTOR_ADDR }
        (execute_implicit sample_state
          { sample_user_msg with «from» := SYSTEM_ACTOR_ADDR }) := by
  constructor
  · exact (C3_deliver_dispatch_on_sender sample_state sample_user_msg).2.2.2.1
      (by decide)
  · exact (C3_deliver_dispatch_on_sender sample_state
      { sample_user_msg with «from» := SYSTEM_ACTOR_ADDR }).1 rfl

/-- Claim C4: an explicitly executed user message whose execution yields a
receipt makes `deliver` return success carrying that receipt — whatever its
exit code — and appends the observability record of height, from, to, method,
exit code and gas used; the user-message failure never becomes an interpreter
error. -/
theorem C4_explicit_receipt_and_trace (st : FvmExecState) (msg : FvmMessage)
    (st1 : FvmExecState) (r : ApplyRet) (em : Emitters)
    (hfrom : msg.«from» ≠ SYSTEM_ACTOR_ADDR)
    (hexec : execute_explicit st msg = .ok (st1, r, em)) :
    deliver st msg = .ok
      ({ st1 with tx_logs := st1.tx_logs ++
          [{ height := st1.block_height, «from» := msg.«from», «to» := msg.«to»,
             method_num := msg.method_num, exit_code := r.msg_receipt.exit_code,
             gas_used := r.msg_receipt.gas_used }] },
       { apply_ret := r, «from» := msg.«from», «to» := msg.«to»,
         method_num := msg.method_num, gas_limit := msg.gas_limit,
         emitters := em }) := by
  unfold deliver deliver_wrap
  rw [if_neg hfrom, hexec]

/-- Witness for C4: delivering a correctly sequenced user message in the
concrete state succeeds and appends the observability record. -/
theorem C4_witness :
    ∃ st1 r em,
      execute_explicit sample_state { sample_user_msg with sequence := 0 } =
        .ok (st1, r, em) ∧
      deliver sample_state { sample_user_msg with sequence := 0 } = .ok
        ({ st1 with tx_logs := st1.tx_logs ++
            [{ height := st1.block_height,
               «from» := { sample_user_msg with sequence := 0 }.«from»,
               «to» := { sample_user_msg with sequence := 0 }.«to»,
               method_num := { sample_user_msg with sequence := 0 }.method_num,
               exit_code := r.msg_receipt.exit_code,
               gas_used := r.msg_receipt.gas_used }] },
         { apply_ret := r,
           «from» := { sample_user_msg with sequence := 0 }.«from»,
           «to» := { sample_user_msg with sequence := 0 }.«to»,
           method_num := { sample_user_msg with sequence := 0 }.method_num,
           gas_limit := { sample_user_msg with sequence := 0 }.gas_limit,
           emitters := em }) := by
  obtain ⟨st1, r, em, hexec⟩ :
      ∃ st1 r em,
        execute_explicit sample_state { sample_user_msg with sequence := 0 } =
          .ok (st1, r, em) :=
    ⟨_, _, _, rfl⟩
  exact ⟨st1, r, em, hexec,
         C4_explicit_receipt_and_trace sample_state _ st1 r em (by decide) hexec⟩

theorem mem_insertByHeight {c d : Checkpoint} {l : List Checkpoint} :
    c ∈ insertByHeight d l ↔ c = d ∨ c ∈ l := by
  induction l with
  | nil => simp [insertByHeight]
  | cons e es ih =>
      unfold insertByHeight
      split
      · simp [or_comm, or_left_comm]
      · simp [ih]
        tauto

theorem mem_sortByHeight {c : Checkpoint} {l : List Checkpoint} :
    c ∈ sortByHeight l ↔ c ∈ l := by
  induction l with
  | nil => simp [sortByHeight]
  | cons e es ih => simp [sortByHeight, mem_insertByHeight, ih]

theorem maybe_create_checkpoint_some_spec {st st1 : FvmExecState}
    {cp : Checkpoint} {u : PowerUpdates}
    (h : maybe_create_checkpoint st = .ok (some (cp, u), st1)) :
    cp.block_height = st.block_height ∧
    (∃ bh, st.block_hash = some bh ∧ cp.block_hash = bh) ∧
    st1.gateway.checkpoints = cp :: st.gateway.checkpoints ∧
    st1.gateway.signatures = st.gateway.signatures ∧
    u = power_diff st.gateway.prev_power_table st.gateway.current_power_table := by
  unfold maybe_create_checkpoint at h
  split at h
  · split at h
    · exact absurd h (by simp)
    · rename_i bh hbh
      split at h
      · exact absurd h (by simp)
      · simp only [Except.ok.injEq, Prod.mk.injEq, Option.some.injEq] at h
        obtain ⟨⟨h1, h2⟩, h3⟩ := h
        subst h1
        subst h2
        subst h3
        exact ⟨rfl, ⟨bh, hbh, rfl⟩, rfl, rfl, rfl⟩
  · exact absurd h (by simp)

/-- Claim C7: `end` dispatches the signature broadcast exactly when all three
conditions hold — a checkpoint was produced in this call, a validator context
is held, and the node is not syncing. -/
theorem C7_broadcast_gating (i : FvmMessageInterpreter) (st st' : FvmExecState)
    (u : PowerUpdates) (d : Option BroadcastDispatch)
    (h : IpcExec.«end» i st = .ok (st', u, d)) :
    d.isSome = true ↔
      ((∃ cp up st1, maybe_create_checkpoint st = .ok (some (cp, up), st1)) ∧
       i.validator_ctx.isSome = true ∧ i.is_syncing = false) := by
  unfold IpcExec.«end» at h
  split at h
  · exact absurd h (by simp)
  · rename_i st1 hcp
    simp only [Except.ok.injEq, Prod.mk.injEq] at h
    obtain ⟨-, -, hd⟩ := h
    subst hd
    simp only [Option.isSome_none, Bool.false_eq_true, false_iff]
    rintro ⟨⟨cp, up, st2, hsome⟩, -, -⟩
    rw [hcp] at hsome
    simp at hsome
  · rename_i cp updates st1 hcp
    split at h
    · rename_i hctx
      simp only [Except.ok.injEq, Prod.mk.injEq] at h
      obtain ⟨-, -, hd⟩ := h
      subst hd
      simp only [Option.isSome_none, Bool.false_eq_true, false_iff]
      rintro ⟨-, hv, -⟩
      rw [hctx] at hv
      simp at hv
    · rename_i ctx hctx
      split at h
      · rename_i hsync
        simp only [Except.ok.injEq, Prod.mk.injEq] at h
        obtain ⟨-, -, hd⟩ := h
        subst hd
        simp only [Option.isSome_none, Bool.false_eq_true, false_iff]
        rintro ⟨-, -, hs⟩
        rw [hsync] at hs
        exact absurd hs (by simp)
      · rename_i hsync
        simp only [Except.ok.injEq, Prod.mk.injEq] at h
        obtain ⟨-, -, hd⟩ := h
        subst hd
        simp only [Option.isSome_some, true_iff]
        exact ⟨⟨cp, updates, st1, hcp⟩, by rw [hctx]; rfl,
               Bool.not_eq_true _ ▸ Bool.eq_false_iff.mpr hsync⟩

/-- Claim C8: when no checkpoint is due, `end` returns the default empty
power updates; conversely, non-empty power updates are returned only when a
checkpoint was produced in that call. -/
theorem C8_power_updates_only_with_checkpoint
    (i : FvmMessageInterpreter) (st : FvmExecState) :
    (∀ st1, maybe_create_checkpoint st = .ok (none, st1) →
        IpcExec.«end» i st = .ok (st1, [], none)) ∧
    (∀ st' u d, IpcExec.«end» i st = .ok (st', u, d) → u ≠ [] →
        ∃ cp st1, maybe_create_checkpoint st = .ok (some (cp, u), st1)) := by
  constructor
  · intro st1 hcp
    unfold IpcExec.«end»
    rw [hcp]
  · intro st' u d h hne
    unfold IpcExec.«end» at h
    split at h
    · exact absurd h (by simp)
    · simp only [Except.ok.injEq, Prod.mk.injEq] at h
      obtain ⟨-, hu, -⟩ := h
      exact absurd hu.symm hne
    · rename_i cp updates st1 hcp
      split at h
      · simp only [Except.ok.injEq, Prod.mk.injEq] at h
        obtain ⟨-, hu, -⟩ := h
        subst hu
        exact ⟨cp, st1, hcp⟩
      · split at h
        · simp only [Except.ok.injEq, Prod.mk.injEq] at h
          obtain ⟨-, hu, -⟩ := h
          subst hu
          exact ⟨cp, st1, hcp⟩
        · simp only [Except.ok.injEq, Prod.mk.injEq] at h
          obtain ⟨-, hu, -⟩ := h
          subst hu
          exact ⟨cp, st1, hcp⟩

/-- Claim C9: when `end` produces a checkpoint and computes the
unsigned-checkpoints list for this validator in the same block, the
just-created checkpoint (same height and hash) is a member of that list, and
the `debug_assert!` guarding this in `end` evaluates to true.  The validator
has no signature recorded at the current height — the checkpoint for this
height is only being created now and a validator signs a checkpoint at most
once, after creation. -/
theorem C9_created_checkpoint_incomplete (i : FvmMessageInterpreter)
    (st st1 : FvmExecState) (cp : Checkpoint) (u : PowerUpdates)
    (ctx : ValidatorContext)
    (hcp : maybe_create_checkpoint st = .ok (some (cp, u), st1))
    (hctx : i.validator_ctx = some ctx)
    (hsync : i.is_syncing = false)
    (hnosig : (ctx.public_key, st.block_height) ∉ st.gateway.signatures) :
    cp ∈ unsigned_checkpoints st1 ctx.public_key ∧
    IpcExec.«end» i st = .ok (st1, u, some
      { validator_pk := ctx.public_key,
        incomplete_checkpoints := unsigned_checkpoints st1 ctx.public_key,
        assert_current_incomplete := true,
        height := cp.block_height }) := by
  obtain ⟨hh, ⟨bh, -, -⟩, hcps, hsigs, -⟩ := maybe_create_checkpoint_some_spec hcp
  have hmem : cp ∈ unsigned_checkpoints st1 ctx.public_key := by
    unfold unsigned_checkpoints
    rw [mem_sortByHeight, List.mem_filter]
    refine ⟨by rw [hcps]; exact List.mem_cons_self _ _, ?_⟩
    rw [hsigs, hh]
    simpa using hnosig
  have hany : (unsigned_checkpoints st1 ctx.public_key).any
      (fun c => c.block_height == cp.block_height && c.block_hash == cp.block_hash) =
        true := by
    rw [List.any_eq_true]
    exact ⟨cp, hmem, by simp⟩
  refine ⟨hmem, ?_⟩
  simp only [IpcExec.«end», hcp, hctx, hsync]
  rw [hany]
  simp

/-- The concrete state at the checkpoint height: height 100 with bottom-up
check period 100 and a block hash available. -/
def checkpoint_state : FvmExecState :=
  { sample_state with block_height := 100 }

/-- A concrete interpreter holding a validator context and not syncing. -/
def validator_interp : FvmMessageInterpreter :=
  { sample_interp with validator_ctx := some { public_key := 9 } }

/-- Witness for C7: at the concrete checkpoint height with a validator
context and not syncing, `end` succeeds and the dispatch gating equivalence
is inhabited. -/
theorem C7_witness :
    ∃ st' u d, IpcExec.«end» validator_interp checkpoint_state = .ok (st', u, d) ∧
      (d.isSome = true ↔
        ((∃ cp up st1,
            maybe_create_checkpoint checkpoint_state = .ok (some (cp, up), st1)) ∧
         validator_interp.validator_ctx.isSome = true ∧
         validator_interp.is_syncing = false)) := by
  obtain ⟨st', u, d, h⟩ :
      ∃ st' u d, IpcExec.«end» validator_interp checkpoint_state = .ok (st', u, d) :=
    ⟨_, _, _, rfl⟩
  exact ⟨st', u, d, h,
         C7_broadcast_gating validator_interp checkpoint_state st' u d h⟩

/-- Witness for C8: at the concrete non-checkpoint height 7 no checkpoint is
due and `end` returns the empty power updates with no dispatch. -/
theorem C8_witness :
    IpcExec.«end» sample_interp sample_state = .ok (sample_state, [], none) :=
  (C8_power_updates_only_with_checkpoint sample_interp sample_state).1
    sample_state rfl

/-- Witness for C9: at the concrete checkpoint height, the checkpoint just
created is in the validator's unsigned-checkpoints list and the assertion
holds. -/
theorem C9_witness :
    ∃ cp u st1,
      maybe_create_checkpoint checkpoint_state = .ok (some (cp, u), st1) ∧
      cp ∈ unsigned_checkpoints st1 9 := by
  obtain ⟨cp, u, st1, hcp⟩ :
      ∃ cp u st1, maybe_create_checkpoint checkpoint_state = .ok (some (cp, u), st1) :=
    ⟨_, _, _, rfl⟩
  exact ⟨cp, u, st1, hcp,
         (C9_created_checkpoint_incomplete validator_interp checkpoint_state st1
            cp u { public_key := 9 } hcp rfl rfl (by simp [checkpoint_state,
              sample_state, sample_gateway])).1⟩

end IpcExec

namespace Provider

/-- The two subnet configuration kinds of `config::subnet::SubnetConfig`. -/
inductive SubnetConfig where
  | Fvm : SubnetConfig
  | Fevm : SubnetConfig
deriving DecidableEq, Repr

/-- Addresses on the provider side, modelled as numbers. -/
abbrev Address := Nat

/-- The `IpcProvider` fields `check_sender` touches: the stored optional
sender and the two wallet capabilities.  `fvm_wallet_default` models
`self.fvm_wallet().write().unwrap().get_default()` and `evm_wallet_default`
models `self.evm_wallet().write().unwrap().get_default()` followed by the
`Address::try_from` conversion (the wallet crate is not in `src/`). -/
structure IpcProvider where
  sender : Option Address
  fvm_wallet_default : Except String Address
  evm_wallet_default : Except String (Option Address)

/-- `check_sender` from `ipc/provider/src/lib.rs`: an explicit `from` wins;
otherwise the stored sender; otherwise the wallet default for the subnet's
kind is returned and recorded as the stored sender.  The final
`Err("error fetching a valid sender")` of the source is kept, though it is
reachable only through the source's redundant `is_none` re-check. -/
def check_sender (p : IpcProvider) (subnet : SubnetConfig) (from? : Option Address) :
    Except String (IpcProvider × Address) :=
  match from? with
  | some f => .ok (p, f)
  | none =>
      match p.sender with
      | some s => .ok (p, s)
      | none =>
          match subnet with
          | .Fvm =>
              if p.sender.isNone then
                match p.fvm_wallet_default with
                | .error e => .error e
                | .ok addr => .ok ({ p with sender := some addr }, addr)
              else .error "error fetching a valid sender"
          | .Fevm =>
              if p.sender.isNone then
                match p.evm_wallet_default with
                | .error e => .error e
                | .ok none => .error "no default evm account configured"
                | .ok (some addr) => .ok ({ p with sender := some addr }, addr)
              else .error "error fetching a valid sender"

/-- A concrete provider with no stored sender and both wallet defaults
configured. -/
def sample_provider : IpcProvider :=
  { sender := none,
    fvm_wallet_default := .ok 77,
    evm_wallet_default := .ok (some 88) }

/-- Claim C10: `check_sender` returns an explicit `from` unchanged without
touching the stored sender; otherwise it returns the stored sender when one
exists; otherwise it returns the wallet default for the subnet's kind and
records it as the stored sender, so a later call without `from` returns the
same address. -/
theorem C10_check_sender_resolution (p : IpcProvider) (subnet : SubnetConfig) :
    (∀ f, check_sender p subnet (some f) = .ok (p, f)) ∧
    (∀ s, p.sender = some s → check_sender p subnet none = .ok (p, s)) ∧
    (p.sender = none → ∀ addr,
        ((subnet = .Fvm ∧ p.fvm_wallet_default = .ok addr) ∨
         (subnet = .Fevm ∧ p.evm_wallet_default = .ok (some addr))) →
        check_sender p subnet none = .ok ({ p with sender := some addr }, addr) ∧
        check_sender { p with sender := some addr } subnet none =
          .ok ({ p with sender := some addr }, addr)) := by
  refine ⟨?_, ?_, ?_⟩
  · intro f
    rfl
  · intro s hs
    simp [check_sender, hs]
  · intro hnone addr hsub
    rcases hsub with ⟨hfvm, hw⟩ | ⟨hevm, hw⟩
    · subst hfvm
      constructor
      · simp [check_sender, hnone, hw]
      · simp [check_sender]
    · subst hevm
      constructor
      · simp [check_sender, hnone, hw]
      · simp [check_sender]

/-- Witness for C10: in the concrete provider the FVM wallet default is
returned, cached, and returned again by a second call; an explicit `from`
always wins. -/
theorem C10_witness :
    check_sender sample_provider .Fvm none =
      .ok ({ sample_provider with sender := some 77 }, 77) ∧
    check_sender { sample_provider with sender := some 77 } .Fvm none =
      .ok ({ sample_provider with sender := some 77 }, 77) ∧
    check_sender sample_provider .Fevm (some 5) = .ok (sample_provider, 5) := by
  refine ⟨?_, ?_, ?_⟩
  · exact ((C10_check_sender_resolution sample_provider .Fvm).2.2 rfl 77
      (Or.inl ⟨rfl, rfl⟩)).1
  · exact ((C10_check_sender_resolution sample_provider .Fvm).2.2 rfl 77
      (Or.inl ⟨rfl, rfl⟩)).2
  · exact (C10_check_sender_resolution sample_provider .Fevm).1 5

end Provider
